import Mathlib

/-!
Shallow embedding of the tele-crossover-bot repository (src/app.py, src/bot.py,
src/alerts.py) and proofs about its specification claims.

Price series are modelled as lists of exact rationals (the closing column of the
downloaded frame).  Machinery that talks to the network (yfinance, telebot) is
modelled by passing the fetched data, or the fetch outcome, as an argument.
-/

/-- Trailing simple moving average of window `w` ending at bar `i`
(pandas `rolling(w).mean()` at row `i`): the mean of `closes[i-w+1 .. i]`.
Only used at indices where the window is full. -/
def smaVal (w : Nat) (closes : List ℚ) (i : Nat) : ℚ :=
  (((closes.take (i + 1)).drop (i + 1 - w)).sum) / (w : ℚ)

/-- `rolling(w).mean()` at row `i`, `none` when the window is not yet full
(the NaN warm-up entries of the SMA column). -/
def smaOpt (w : Nat) (closes : List ℚ) (i : Nat) : Option ℚ :=
  if w ≤ i + 1 then some (smaVal w closes i) else none

/-- Indices of the rows that survive `df.dropna(subset=["SMA50", "SMA200"])`:
both rolling means are defined there. -/
def survivors (closes : List ℚ) : List Nat :=
  (List.range closes.length).filter
    (fun i => (smaOpt 50 closes i).isSome && (smaOpt 200 closes i).isSome)

/-- `prev50 < prev200 and latest50 > latest200` (app.py line 84 / bot.py line 74)
at rows `p` (second-to-last) and `l` (last). -/
def goldenCond (closes : List ℚ) (p l : Nat) : Prop :=
  smaVal 50 closes p < smaVal 200 closes p ∧ smaVal 50 closes l > smaVal 200 closes l

/-- `prev50 > prev200 and latest50 < latest200` (app.py line 86 / bot.py line 76). -/
def deathCond (closes : List ℚ) (p l : Nat) : Prop :=
  smaVal 50 closes p > smaVal 200 closes p ∧ smaVal 50 closes l < smaVal 200 closes l

instance (closes : List ℚ) (p l : Nat) : Decidable (goldenCond closes p l) := by
  unfold goldenCond; infer_instance

instance (closes : List ℚ) (p l : Nat) : Decidable (deathCond closes p l) := by
  unfold deathCond; infer_instance

/-- The three-way classification at rows `p` and `l`
(app.py lines 84-88 / bot.py lines 74-78). -/
def classifyPair (closes : List ℚ) (p l : Nat) : String :=
  if goldenCond closes p l then "Golden Cross"
  else if deathCond closes p l then "Death Cross"
  else "No Crossover"

/-- `get_crossover` of app.py (lines 63-91) / bot.py (lines 60-81) applied to a
successfully downloaded frame: empty check, SMA columns, dropna, length check,
then the comparison of the second-to-last and last surviving rows
(`df.iloc[-2]`, `df.iloc[-1]`). -/
def app_get_crossover_frame (closes : List ℚ) : String :=
  if closes = [] then "No data"
  else if (survivors closes).length < 2 then "Not enough data"
  else classifyPair closes
    ((survivors closes).getD ((survivors closes).length - 2) 0)
    ((survivors closes).getD ((survivors closes).length - 1) 0)

/-- Outcome of `yf.download` inside app.py/bot.py `get_crossover`: the call can
raise, return `None`, or return a frame (modelled by its closing column). -/
inductive Fetched where
  | failure : String → Fetched
  | noFrame : Fetched
  | frame : List ℚ → Fetched

/-- Full `get_crossover` of app.py/bot.py.  The whole body sits in
`try ... except`, so a raised fetch/compute error becomes `"Error"`;
`df is None` becomes `"No data"`. -/
def app_get_crossover (fetch : Fetched) : String :=
  match fetch with
  | .failure _ => "Error"
  | .noFrame => "No data"
  | .frame closes => app_get_crossover_frame closes

/-- `get_crossover` of alerts.py (lines 26-37) applied to a downloaded frame:
`df.empty or len(df) < 205` returns `"None"`; otherwise the SMA columns are
compared at `iloc[-2]` and `iloc[-1]` without any dropna (with at least 205
rows both windows are full there). -/
def alerts_get_crossover_frame (closes : List ℚ) : String :=
  if closes = [] ∨ closes.length < 205 then "None"
  else
    if goldenCond closes (closes.length - 2) (closes.length - 1) then "Golden Cross"
    else if deathCond closes (closes.length - 2) (closes.length - 1) then "Death Cross"
    else "None"

/-- Full `get_crossover` of alerts.py.  There is no `try ... except` in this
function, so a raised download error propagates to the caller unchanged. -/
def alerts_get_crossover (fetch : Except String (List ℚ)) : Except String String :=
  match fetch with
  | .error e => .error e
  | .ok closes => .ok (alerts_get_crossover_frame closes)

/-!
## Signal-state store and batch poll loop (alerts.py)

`last_signals` is a nested dict `{symbol: {timeframe: status}}`, modelled as an
association list preserving dict insertion/update semantics.
-/

/-- The persisted signal-state store of alerts.py (`last_signals`). -/
abbrev SignalStore := List (String × List (String × String))

/-- `last_signals.get(symbol, {}).get(tf, "None")` (alerts.py line 45). -/
def SignalStore.get (st : SignalStore) (sym tf : String) : String :=
  match st.find? (fun e => e.1 == sym) with
  | some e =>
      match e.2.find? (fun p => p.1 == tf) with
      | some p => p.2
      | none => "None"
  | none => "None"

/-- Update or insert a timeframe entry inside one symbol's dict
(`d[tf] = status`). -/
def updateTf : List (String × String) → String → String → List (String × String)
  | [], tf, status => [(tf, status)]
  | p :: rest, tf, status =>
      if p.1 == tf then (tf, status) :: rest else p :: updateTf rest tf status

/-- `last_signals.setdefault(symbol, {})[tf] = status` (alerts.py line 49):
a dict insertion appends at the end, an update happens in place. -/
def SignalStore.set : SignalStore → String → String → String → SignalStore
  | [], sym, tf, status => [(sym, [(tf, status)])]
  | e :: rest, sym, tf, status =>
      if e.1 == sym then (e.1, updateTf e.2 tf status) :: rest
      else e :: SignalStore.set rest sym tf status

/-- The alert line built at alerts.py lines 47-48. -/
def alertLine (sym tf status : String) : String :=
  sym ++ " (" ++ tf ++ "): " ++
    (if status = "Golden Cross" then "✅" else "❌") ++ " " ++ status

/-- Header prepended to the aggregated message (alerts.py line 51). -/
def alertHeader : String := "⚡ *Crossover Alert!*\n\n"

/-- The timeframe/period table swept by `check_signals` (alerts.py line 43). -/
def timeframes : List (String × String) := [("1d", "1y"), ("1h", "60d")]

/-- One (symbol, timeframe) step of the `check_signals` sweep (alerts.py
lines 44-49): classify, read the previous status, and on a fresh notable
status append one alert line and update the store.  `classify sym tf` stands
for `get_crossover(symbol, tf, period)` (the period is a function of the
timeframe). -/
def step_pair (classify : String → String → String) (st : SignalStore)
    (sym tf : String) : List String × SignalStore :=
  if classify sym tf ≠ SignalStore.get st sym tf ∧ classify sym tf ≠ "None" then
    ([alertLine sym tf (classify sym tf)], SignalStore.set st sym tf (classify sym tf))
  else ([], st)

/-- The nested `for` loops of `check_signals`, flattened into one pass over the
(symbol, timeframe) pairs, threading the message list and the store.  The
classifier is fallible, like `alerts_get_crossover`: this `get_crossover` has
no exception handler, so a raised download error aborts the sweep on the spot
and propagates — the remaining pairs are not visited, and everything collected
so far is lost with the process (alerts.py lines 26-27 and 60-62 have no
handler either). -/
def sweep (classify : String → String → Except String String) :
    List (String × String) → List String × SignalStore →
      Except String (List String × SignalStore)
  | [], acc => .ok acc
  | (sym, tf) :: rest, (msgs, st) =>
      match classify sym tf with
      | .error e => .error e
      | .ok status =>
          if status ≠ SignalStore.get st sym tf ∧ status ≠ "None" then
            sweep classify rest
              (msgs ++ [alertLine sym tf status], SignalStore.set st sym tf status)
          else sweep classify rest (msgs, st)

/-- The (symbol, timeframe) pairs visited by `check_signals`:
every watchlist symbol crossed with `timeframes`, in iteration order. -/
def pairsOf (wl : List String) : List (String × String) :=
  (wl.map (fun sym => timeframes.map (fun tfp => (sym, tfp.1)))).flatten

/-- The sweep part of `check_signals` (alerts.py lines 39-49): the collected
alert lines and the updated in-memory store, or the exception raised by the
first failing fetch. -/
def check_signals (classify : String → String → Except String String)
    (wl : List String) (st : SignalStore) :
    Except String (List String × SignalStore) :=
  sweep classify (pairsOf wl) ([], st)

/-- Observable effects of one completed poll cycle (alerts.py lines 39-54):
the message sent (if any), whether the store file was written, and the
resulting in-memory store. -/
structure CycleResult where
  sent : Option String
  wrote : Bool
  store : SignalStore
deriving DecidableEq, Repr

deriving instance DecidableEq for Except

/-- The message delivered by a poll cycle, `none` when the cycle aborted on an
uncaught exception (nothing was sent). -/
def sentOf : Except String CycleResult → Option String
  | .error _ => none
  | .ok r => r.sent

/-- Whether a poll cycle wrote the signal-state file; an aborted cycle never
reaches the `json.dump`. -/
def wroteOf : Except String CycleResult → Bool
  | .error _ => false
  | .ok r => r.wrote

/-- One full `check_signals` call (alerts.py lines 39-54): the sweep, then
`if messages:` sends one aggregated message and only afterwards dumps the
store to signals.json.  `send` is the outcome of `bot.send_message`: if the
sweep raises, or the send raises, the exception propagates (out of
`schedule.run_pending`, alerts.py lines 60-62) — no message is delivered
and/or the file write is never reached. -/
def poll_cycle (classify : String → String → Except String String)
    (send : Except String Unit) (wl : List String) (st : SignalStore) :
    Except String CycleResult :=
  match check_signals classify wl st with
  | .error e => .error e
  | .ok (msgs, st') =>
      if msgs = [] then .ok ⟨none, false, st'⟩
      else
        match send with
        | .error e => .error e
        | .ok _ => .ok ⟨some (alertHeader ++ String.intercalate "\n" msgs), true, st'⟩

/-- A (symbol, timeframe) pair produces a notable state change against store
`st` exactly when its fetch returns and the guard of alerts.py line 46 fires;
a raised fetch is not a state change. -/
def notable_change (classify : String → String → Except String String)
    (st : SignalStore) (sym tf : String) : Prop :=
  match classify sym tf with
  | .error _ => False
  | .ok status => status ≠ SignalStore.get st sym tf ∧ status ≠ "None"

instance (classify : String → String → Except String String) (st : SignalStore)
    (sym tf : String) : Decidable (notable_change classify st sym tf) := by
  unfold notable_change
  cases classify sym tf with
  | error e => exact isFalse (fun h => h)
  | ok status =>
      exact (show Decidable (status ≠ SignalStore.get st sym tf ∧ status ≠ "None")
        from inferInstance)

/-!
## Live subscriptions and the dynamic minute-level loop (bot.py)
-/

/-- The in-memory `subscriptions` map of bot.py line 159:
`{symbol: [chat_id, ...]}`, modelled as an association list with dict
insertion-order semantics. -/
abbrev Subs := List (String × List Int)

/-- `subscriptions[sym]` after a `setdefault(sym, [])`, i.e. the current
subscriber list of `sym` (empty when the key is absent). -/
def Subs.chats (subs : Subs) (sym : String) : List Int :=
  match subs.find? (fun e => e.1 == sym) with
  | some e => e.2
  | none => []

/-- `subscriptions[sym].append(chat_id)`: append to the first entry keyed
`sym`, leave everything else alone. -/
def Subs.add : Subs → String → Int → Subs
  | [], _, _ => []
  | e :: rest, sym, chat =>
      if e.1 == sym then (e.1, e.2 ++ [chat]) :: rest
      else e :: Subs.add rest sym chat

/-- Reply for a fresh `/track` subscription (bot.py line 173). -/
def trackNewMsg (sym : String) : String :=
  "✅ You are now subscribed to real-time crossover alerts for " ++ sym

/-- Reply for a repeated `/track` subscription (bot.py line 175). -/
def trackDupMsg (sym : String) : String :=
  "🔔 Already subscribed to " ++ sym

/-- The `/track` handler (bot.py lines 162-175) after argument parsing and
`norm`: `setdefault(sym, [])` (which appends an empty entry when the key is
absent), membership test, conditional append, and the reply text. -/
def handle_track (subs : Subs) (sym : String) (chat_id : Int) : Subs × String :=
  if (subs.find? (fun e => e.1 == sym)).isSome then
    if chat_id ∉ Subs.chats subs sym then
      (Subs.add subs sym chat_id, trackNewMsg sym)
    else (subs, trackDupMsg sym)
  else
    if chat_id ∉ Subs.chats (subs ++ [(sym, [])]) sym then
      (Subs.add (subs ++ [(sym, [])]) sym chat_id, trackNewMsg sym)
    else (subs ++ [(sym, [])], trackDupMsg sym)

/-- One symbol's step of `dynamic_crossover_loop` (bot.py lines 180-189):
given the fresh minute classification, the previously remembered minute state
(`last_cross_state.get(sym, {}).get("minute")`, `none` when absent) and the
subscriber chat ids, return the (chat, text) messages sent and the new
remembered minute state.  The guard excludes `None`, `"No Crossover"`,
`"Not enough data"` and `"Error"` — and nothing else — and fires only on a
changed value (`minute_cross != last_minute`). -/
def dynamic_step (sym : String) (minute_cross : String) (last_minute : Option String)
    (chat_ids : List Int) : List (Int × String) × Option String :=
  if minute_cross ∉ ["No Crossover", "Not enough data", "Error"] ∧
      some minute_cross ≠ last_minute then
    (chat_ids.map (fun chat_id =>
        (chat_id, "⏱️ " ++ sym ++ " Minute-Level Crossover Alert: " ++ minute_cross)),
     some minute_cross)
  else ([], last_minute)

/-!
## Watchlist CRUD routes (app.py)
-/

/-- Python `str.strip()`: whitespace removed from both ends. -/
def pyStrip (s : String) : String :=
  ⟨((s.data.dropWhile fun c => c.isWhitespace).reverse.dropWhile
      fun c => c.isWhitespace).reverse⟩

/-- Python `str.upper()` (the symbols used here are ASCII). -/
def pyUpper (s : String) : String := ⟨s.data.map Char.toUpper⟩

/-- `symbol.strip().upper()` — the normalisation applied by the routes
(app.py lines 129 and 146) and by `norm` (bot.py line 56). -/
def pyNorm (s : String) : String := pyUpper (pyStrip s)

/-- Observable outcome of the `/add_stock` and `/remove_stock` routes:
response body and HTTP status, plus the list passed to `save_watchlist`
(`none` when no save was attempted, so the persisted file is untouched). -/
structure RouteResult where
  body : String
  status : Nat
  saved : Option (List String)
deriving DecidableEq, Repr

/-- The `/add_stock` route (app.py lines 126-141).  `raw` is the posted form
value, `wl` the loaded (already upper-cased) watchlist, `saveOk` the outcome
of `save_watchlist`. -/
def add_stock (raw : String) (saveOk : Bool) (wl : List String) : RouteResult :=
  if pyNorm raw = "" then ⟨"Symbol is required", 400, none⟩
  else if pyNorm raw ∈ wl then
    ⟨pyNorm raw ++ " is already in watchlist", 400, none⟩
  else if saveOk then
    ⟨"Added " ++ pyNorm raw ++ " to watchlist", 200, some (wl ++ [pyNorm raw])⟩
  else ⟨"Failed to save watchlist", 500, some (wl ++ [pyNorm raw])⟩

/-- The `/remove_stock` route (app.py lines 143-158). -/
def remove_stock (raw : String) (saveOk : Bool) (wl : List String) : RouteResult :=
  if pyNorm raw = "" then ⟨"Symbol is required", 400, none⟩
  else if pyNorm raw ∉ wl then
    ⟨pyNorm raw ++ " not found in watchlist", 400, none⟩
  else if saveOk then
    ⟨"Removed " ++ pyNorm raw ++ " from watchlist", 200,
     some (wl.filter (fun s => s ≠ pyNorm raw))⟩
  else ⟨"Failed to save watchlist", 500, some (wl.filter (fun s => s ≠ pyNorm raw))⟩

/-!
## Startup behaviour (bot.py lines 16-31 and 210-218, alerts.py lines 12-24)
-/

/-- Whether the module reaches its main loop or the process halts first. -/
inductive StartupOutcome where
  | halted : StartupOutcome
  | running : StartupOutcome
deriving DecidableEq, Repr

/-- Python truthiness of an environment variable: `None` and `""` are falsy. -/
def envTruthy : Option String → Bool
  | none => false
  | some s => !s.isEmpty

/-- bot.py startup (lines 16-31, 210-218): `if not BOT_TOKEN or not CHAT_ID:
raise SystemExit(1)` runs before anything else; the later watchlist-file
initialisation is wrapped in `try ... except` and only logged, so its failure
(`watchlistInitFails`) never halts the process before the loops start. -/
def bot_startup (token chat : Option String) (watchlistInitFails : Bool) : StartupOutcome :=
  if envTruthy token = false ∨ envTruthy chat = false then .halted
  else
    match watchlistInitFails with
    | _ => .running

/-- State of signals.json at alerts.py startup. -/
inductive SignalsFile where
  | missing : SignalsFile
  | corrupt : SignalsFile
  | wellFormed : SignalStore → SignalsFile

/-- alerts.py startup (lines 12-24): the credentials are read but never
validated (`telebot.TeleBot` stores the token without contacting the API),
and the `open`/`json.load` of signals.json catches only `FileNotFoundError`,
so a malformed file raises an uncaught `JSONDecodeError` and kills the
process before the schedule loop. -/
def alerts_startup (token chat : Option String) (sf : SignalsFile) : StartupOutcome :=
  match token, chat, sf with
  | _, _, .corrupt => .halted
  | _, _, .missing => .running
  | _, _, .wellFormed _ => .running

/-!
## Characterisation of the warm-up survivors
-/

lemma smaOpt_isSome (w : Nat) (closes : List ℚ) (i : Nat) :
    (smaOpt w closes i).isSome = decide (w ≤ i + 1) := by
  unfold smaOpt; split <;> simp_all

lemma range_filter_le (k n : Nat) :
    (List.range n).filter (fun i => decide (k ≤ i)) = List.range' k (n - k) := by
  induction n with
  | zero => simp
  | succ n ih =>
    rw [List.range_succ, List.filter_append, ih]
    by_cases h : k ≤ n
    · have hn : n + 1 - k = (n - k) + 1 := by omega
      rw [hn, List.range'_concat]
      have hk : k + 1 * (n - k) = n := by omega
      rw [hk]
      congr 1
      simp [List.filter, h]
    · have h0 : n + 1 - k = 0 := by omega
      have h0' : n - k = 0 := by omega
      simp [List.filter, h, h0, h0']

/-- The rows surviving the dropna are exactly the indices from 199 on:
SMA200 is defined from row 199, and SMA50 is then defined as well. -/
lemma survivors_eq (closes : List ℚ) :
    survivors closes = List.range' 199 (closes.length - 199) := by
  unfold survivors
  have hcong : ∀ i ∈ List.range closes.length,
      ((smaOpt 50 closes i).isSome && (smaOpt 200 closes i).isSome) = decide (199 ≤ i) := by
    intro i _
    rw [smaOpt_isSome, smaOpt_isSome]
    by_cases h : 199 ≤ i
    · have h1 : 50 ≤ i + 1 := by omega
      have h2 : 200 ≤ i + 1 := by omega
      simp [h, h1, h2]
    · have h2 : ¬ (200 ≤ i + 1) := by omega
      simp [h, h2]
  rw [List.filter_congr hcong, range_filter_le]

lemma survivors_length (closes : List ℚ) :
    (survivors closes).length = closes.length - 199 := by
  rw [survivors_eq, List.length_range']

lemma survivors_getD (closes : List ℚ) (i : Nat) (h : i < closes.length - 199) :
    (survivors closes).getD i 0 = 199 + i := by
  rw [survivors_eq]
  have hl : i < (List.range' 199 (closes.length - 199)).length := by
    rw [List.length_range']; exact h
  rw [List.getD_eq_getElem _ _ hl, List.getElem_range']
  omega

/-- C1.  Crossover classification correctness: whenever at least two bars
survive the warm-up removal, the detector answers "Golden Cross" exactly when
the 50-bar SMA is below the 200-bar SMA at the second-to-last bar and above it
at the last bar, "Death Cross" exactly on the reverse transition, and
"No Crossover" otherwise; the two notable conditions are mutually exclusive. -/
theorem C1_crossover_classification (closes : List ℚ)
    (h2 : 2 ≤ (survivors closes).length) :
    (app_get_crossover_frame closes = "Golden Cross" ↔
        goldenCond closes (closes.length - 2) (closes.length - 1)) ∧
    (app_get_crossover_frame closes = "Death Cross" ↔
        deathCond closes (closes.length - 2) (closes.length - 1)) ∧
    (app_get_crossover_frame closes = "No Crossover" ↔
        (¬ goldenCond closes (closes.length - 2) (closes.length - 1) ∧
         ¬ deathCond closes (closes.length - 2) (closes.length - 1))) ∧
    ¬ (goldenCond closes (closes.length - 2) (closes.length - 1) ∧
       deathCond closes (closes.length - 2) (closes.length - 1)) := by
  have hlen : (survivors closes).length = closes.length - 199 := survivors_length closes
  have hn : 201 ≤ closes.length := by omega
  have hne : closes ≠ [] := by
    intro h; rw [h] at hn; simp at hn
  have hfr : app_get_crossover_frame closes =
      classifyPair closes (closes.length - 2) (closes.length - 1) := by
    unfold app_get_crossover_frame
    rw [if_neg hne, if_neg (by omega : ¬ (survivors closes).length < 2), hlen]
    rw [survivors_getD closes _ (by omega), survivors_getD closes _ (by omega)]
    have e1 : 199 + (closes.length - 199 - 2) = closes.length - 2 := by omega
    have e2 : 199 + (closes.length - 199 - 1) = closes.length - 1 := by omega
    rw [e1, e2]
  have hexcl : ¬ (goldenCond closes (closes.length - 2) (closes.length - 1) ∧
      deathCond closes (closes.length - 2) (closes.length - 1)) :=
    fun ⟨hgc, hdc⟩ => lt_asymm hgc.1 hdc.1
  refine ⟨?_, ?_, ?_, hexcl⟩ <;>
    · rw [hfr]; unfold classifyPair; split_ifs with hg hd <;> simp_all

/-- A concrete 201-bar series whose fast average crosses the slow one from
below at the last bar. -/
def exGolden : List ℚ := List.replicate 150 2 ++ (List.replicate 50 0 ++ [100])

set_option maxRecDepth 20000 in
/-- Witness for C1 at the concrete series `exGolden`. -/
theorem C1_crossover_classification_witness :
    2 ≤ (survivors exGolden).length ∧
    (app_get_crossover_frame exGolden = "Golden Cross" ↔
      goldenCond exGolden (exGolden.length - 2) (exGolden.length - 1)) :=
  ⟨by decide, (C1_crossover_classification exGolden (by decide)).1⟩

/-!
## Store lemmas and the batch-loop claims
-/

lemma updateTf_find (l : List (String × String)) (tf v : String) :
    (updateTf l tf v).find? (fun p => p.1 == tf) = some (tf, v) := by
  induction l with
  | nil => simp [updateTf]
  | cons p rest ih =>
    by_cases h : p.1 = tf
    · simp [updateTf, h]
    · simp [updateTf, h, ih]

lemma signalStore_get_set (st : SignalStore) (sym tf v : String) :
    SignalStore.get (SignalStore.set st sym tf v) sym tf = v := by
  induction st with
  | nil => simp [SignalStore.set, SignalStore.get, updateTf]
  | cons e rest ih =>
    by_cases h : e.1 = sym
    · simp [SignalStore.set, h, SignalStore.get, updateTf_find]
    · simp only [SignalStore.set, SignalStore.get] at *
      rw [if_neg (by simpa using h)]
      simp only [List.find?]
      rw [show ((e.1 == sym) = false) from by simpa using h]
      exact ih

/-- C2.  Duplicate suppression per (symbol, timeframe): on a pair whose stored
state is "Golden Cross", a fresh "Golden Cross" classification makes the sweep
body emit no alert line and leave the store untouched, while a fresh
"Death Cross" emits exactly one alert line for the pair and rewrites the stored
state to "Death Cross". -/
theorem C2_duplicate_suppression (classify : String → String → String)
    (st : SignalStore) (sym tf : String)
    (hprev : SignalStore.get st sym tf = "Golden Cross") :
    (classify sym tf = "Golden Cross" → step_pair classify st sym tf = ([], st)) ∧
    (classify sym tf = "Death Cross" →
      step_pair classify st sym tf =
        ([alertLine sym tf "Death Cross"], SignalStore.set st sym tf "Death Cross") ∧
      SignalStore.get (step_pair classify st sym tf).2 sym tf = "Death Cross") := by
  constructor
  · intro hc
    unfold step_pair
    rw [if_neg]
    simp [hc, hprev]
  · intro hc
    have hcond : classify sym tf ≠ SignalStore.get st sym tf ∧ classify sym tf ≠ "None" := by
      rw [hc, hprev]; exact ⟨by decide, by decide⟩
    have hstep : step_pair classify st sym tf =
        ([alertLine sym tf "Death Cross"], SignalStore.set st sym tf "Death Cross") := by
      unfold step_pair
      rw [if_pos hcond, hc]
    refine ⟨hstep, ?_⟩
    rw [hstep]
    exact signalStore_get_set st sym tf "Death Cross"

/-- A store holding "Golden Cross" for ("AAA", "1d"). -/
def exStore : SignalStore := [("AAA", [("1d", "Golden Cross")])]

/-- Witness for C2: a fresh "Death Cross" against a stored "Golden Cross". -/
theorem C2_duplicate_suppression_witness :
    SignalStore.get exStore "AAA" "1d" = "Golden Cross" ∧
    step_pair (fun _ _ => "Death Cross") exStore "AAA" "1d" =
      ([alertLine "AAA" "1d" "Death Cross"], SignalStore.set exStore "AAA" "1d" "Death Cross") :=
  ⟨by decide,
   ((C2_duplicate_suppression (fun _ _ => "Death Cross") exStore "AAA" "1d" (by decide)).2 rfl).1⟩

lemma pairsOf_forall (wl : List String) (P : String → String → Prop)
    (h : ∀ sym ∈ wl, ∀ tfp ∈ timeframes, P sym tfp.1) :
    ∀ p ∈ pairsOf wl, P p.1 p.2 := by
  intro p hp
  unfold pairsOf at hp
  simp only [List.mem_flatten, List.mem_map] at hp
  obtain ⟨l, ⟨sym, hsym, hl⟩, hpl⟩ := hp
  subst hl
  simp only [List.mem_map] at hpl
  obtain ⟨tfp, htfp, hpe⟩ := hpl
  subst hpe
  exact h sym hsym tfp htfp

/-- A sweep over pairs none of which produces a notable state change collects
no alert line and leaves the store as it was — unless some fetch raises, in
which case it aborts with that exception. -/
lemma sweep_no_change (classify : String → String → Except String String) :
    ∀ (pairs : List (String × String)) (msgs : List String) (st : SignalStore),
      (∀ p ∈ pairs, ¬ notable_change classify st p.1 p.2) →
      sweep classify pairs (msgs, st) = .ok (msgs, st) ∨
        ∃ e, sweep classify pairs (msgs, st) = .error e := by
  intro pairs
  induction pairs with
  | nil => intro msgs st _; exact .inl rfl
  | cons hd tl ih =>
    intro msgs st h
    obtain ⟨sym, tf⟩ := hd
    have h0 : ¬ notable_change classify st sym tf := h (sym, tf) (by simp)
    unfold notable_change at h0
    cases hc : classify sym tf with
    | error e =>
        refine .inr ⟨e, ?_⟩
        simp only [sweep, hc]
    | ok status =>
        rw [hc] at h0
        have h0' : ¬ (status ≠ SignalStore.get st sym tf ∧ status ≠ "None") := h0
        simp only [sweep, hc]
        rw [if_neg h0']
        exact ih msgs st (fun p hp => h p (List.mem_cons_of_mem _ hp))

/-- When additionally every fetch of the sweep returns, a no-change sweep
completes and returns its input unchanged. -/
lemma sweep_no_change_ok (classify : String → String → Except String String) :
    ∀ (pairs : List (String × String)) (msgs : List String) (st : SignalStore),
      (∀ p ∈ pairs, (classify p.1 p.2).isOk = true) →
      (∀ p ∈ pairs, ¬ notable_change classify st p.1 p.2) →
      sweep classify pairs (msgs, st) = .ok (msgs, st) := by
  intro pairs
  induction pairs with
  | nil => intro msgs st _ _; rfl
  | cons hd tl ih =>
    intro msgs st hok h
    obtain ⟨sym, tf⟩ := hd
    have h0 : ¬ notable_change classify st sym tf := h (sym, tf) (by simp)
    have hok0 : (classify sym tf).isOk = true := hok (sym, tf) (by simp)
    unfold notable_change at h0
    cases hc : classify sym tf with
    | error e => rw [hc] at hok0; simp [Except.isOk, Except.toBool] at hok0
    | ok status =>
        rw [hc] at h0
        have h0' : ¬ (status ≠ SignalStore.get st sym tf ∧ status ≠ "None") := h0
        simp only [sweep, hc]
        rw [if_neg h0']
        exact ih msgs st (fun p hp => hok p (List.mem_cons_of_mem _ hp))
          (fun p hp => h p (List.mem_cons_of_mem _ hp))

/-- A cycle in which the daily fetch classifies "Death Cross" but the hourly
fetch raises. -/
def classifyBoom : String → String → Except String String :=
  fun _ tf => if tf = "1d" then .ok "Death Cross" else .error "boom"

/-- C3 counterexample.  A poll cycle in which the ("AAA", "1d") pair produces
a notable state change (fresh "Death Cross" against stored "Golden Cross")
but the later hourly fetch raises: the uncaught exception aborts
`check_signals` mid-sweep, so no aggregated message is sent and the
signal-state file is not written, falsifying the claim's positive
direction. -/
theorem C3_aborted_cycle :
    classifyBoom "AAA" "1d" = .ok "Death Cross" ∧
    "Death Cross" ≠ SignalStore.get exStore "AAA" "1d" ∧
    poll_cycle classifyBoom (.ok ()) ["AAA"] exStore = .error "boom" ∧
    sentOf (poll_cycle classifyBoom (.ok ()) ["AAA"] exStore) = none ∧
    wroteOf (poll_cycle classifyBoom (.ok ()) ["AAA"] exStore) = false := by decide

/-- C3 (amended).  For every poll cycle of the batch loop: if no pair produces
a notable state change, no message is sent and the state file is not written —
with or without a fetch raising mid-sweep; when moreover every fetch returns,
the cycle completes with no message, no write and an unchanged store.  If the
sweep completes with at least one alert line, exactly one aggregated message
carrying all the lines is sent and the updated store is persisted once —
provided the send returns; a send that raises aborts the cycle before the
file write. -/
theorem C3_batching_effects (classify : String → String → Except String String)
    (send : Except String Unit) (wl : List String) (st : SignalStore) :
    ((∀ sym ∈ wl, ∀ tfp ∈ timeframes, ¬ notable_change classify st sym tfp.1) →
        sentOf (poll_cycle classify send wl st) = none ∧
        wroteOf (poll_cycle classify send wl st) = false) ∧
    ((∀ sym ∈ wl, ∀ tfp ∈ timeframes, (classify sym tfp.1).isOk = true) →
     (∀ sym ∈ wl, ∀ tfp ∈ timeframes, ¬ notable_change classify st sym tfp.1) →
        poll_cycle classify send wl st = .ok ⟨none, false, st⟩) ∧
    (∀ msgs st', check_signals classify wl st = .ok (msgs, st') → msgs ≠ [] →
        poll_cycle classify (.ok ()) wl st =
          .ok ⟨some (alertHeader ++ String.intercalate "\n" msgs), true, st'⟩ ∧
        (∀ e, poll_cycle classify (.error e) wl st = .error e)) := by
  refine ⟨?_, ?_, ?_⟩
  · intro h
    have hp : ∀ p ∈ pairsOf wl, ¬ notable_change classify st p.1 p.2 :=
      pairsOf_forall wl (fun sym tf => ¬ notable_change classify st sym tf) h
    rcases sweep_no_change classify (pairsOf wl) [] st hp with hcs | ⟨e, hcs⟩
    · have hcs2 : check_signals classify wl st = .ok ([], st) := hcs
      have hpc : poll_cycle classify send wl st = .ok ⟨none, false, st⟩ := by
        unfold poll_cycle
        rw [hcs2]
        rfl
      rw [hpc]
      exact ⟨rfl, rfl⟩
    · have hcs2 : check_signals classify wl st = .error e := hcs
      have hpc : poll_cycle classify send wl st = .error e := by
        unfold poll_cycle
        rw [hcs2]
      rw [hpc]
      exact ⟨rfl, rfl⟩
  · intro hok h
    have hcs2 : check_signals classify wl st = .ok ([], st) :=
      sweep_no_change_ok classify (pairsOf wl) [] st
        (pairsOf_forall wl (fun sym tf => (classify sym tf).isOk = true) hok)
        (pairsOf_forall wl (fun sym tf => ¬ notable_change classify st sym tf) h)
    unfold poll_cycle
    rw [hcs2]
    rfl
  · intro msgs st' hcs hne
    constructor
    · unfold poll_cycle
      rw [hcs]
      simp [hne]
    · intro e
      unfold poll_cycle
      rw [hcs]
      simp [hne]

/-- Fresh "Death Cross" classifications, every fetch returning. -/
def classifyDeath : String → String → Except String String :=
  fun _ _ => .ok "Death Cross"

/-- The store after the witness cycle below. -/
def exStoreAfter : SignalStore := [("AAA", [("1d", "Death Cross"), ("1h", "Death Cross")])]

/-- Witness for C3 (amended): a completed sweep with two alert lines sends one
aggregated message and persists the updated store. -/
theorem C3_batching_effects_witness :
    check_signals classifyDeath ["AAA"] exStore =
      .ok ([alertLine "AAA" "1d" "Death Cross", alertLine "AAA" "1h" "Death Cross"],
           exStoreAfter) ∧
    poll_cycle classifyDeath (.ok ()) ["AAA"] exStore =
      .ok ⟨some (alertHeader ++ String.intercalate "\n"
              [alertLine "AAA" "1d" "Death Cross", alertLine "AAA" "1h" "Death Cross"]),
           true, exStoreAfter⟩ :=
  ⟨by decide,
   ((C3_batching_effects classifyDeath (.ok ()) ["AAA"] exStore).2.2
      [alertLine "AAA" "1d" "Death Cross", alertLine "AAA" "1h" "Death Cross"]
      exStoreAfter (by decide) (by decide)).1⟩

/-!
## Live-loop claims (C4, C5) and detector sentinel claims (C6, C8)
-/

/-- C4.  The claimed store invariant fails in the live loop: with a stored
"Golden Cross" for the minute timeframe, a fresh "No data" classification is
written into `last_cross_state` — the guard of bot.py line 186 omits
"No data" from its exclusion list — so a non-notable state is persisted in
the per-symbol state map. -/
theorem C4_live_loop_stores_no_data :
    (dynamic_step "AAPL" "No data" (some "Golden Cross") [7]).2 = some "No data" ∧
    "No data" ≠ "Golden Cross" ∧ "No data" ≠ "Death Cross" := by decide

/-- C5.  A non-notable classification is not a no-op in the live loop: a fresh
"No data" against a remembered "Golden Cross" emits a minute-level alert to
every subscriber and transitions the remembered state, contradicting the
claimed no-op behaviour. -/
theorem C5_live_loop_notifies_no_data :
    (dynamic_step "AAPL" "No data" (some "Golden Cross") [7]).1 =
      [(7, "⏱️ AAPL Minute-Level Crossover Alert: No data")] ∧
    (dynamic_step "AAPL" "No data" (some "Golden Cross") [7]).2 ≠ some "Golden Cross" := by
  decide

/-- C6 counterexample.  The alerts.py detector has no exception handler: a
failed download propagates to the caller instead of becoming the sentinel
"Error". -/
theorem C6_detector_propagates_error :
    alerts_get_crossover (Except.error "network down") = Except.error "network down" ∧
    alerts_get_crossover (Except.error "network down") ≠ Except.ok "Error" := by
  exact ⟨rfl, fun h => by cases h⟩

/-- C6 amended.  The web/interactive detector (app.py/bot.py) is total and
converts every fetch failure to "Error" and a missing or empty frame to
"No data"; the batch detector (alerts.py) instead propagates fetch failures
unchanged and, on a successful fetch, only ever returns its own frame
classification (with "None" for an empty frame, see C8). -/
theorem C6_error_sentinels (e : String) (closes : List ℚ) :
    app_get_crossover (.failure e) = "Error" ∧
    app_get_crossover .noFrame = "No data" ∧
    app_get_crossover (.frame []) = "No data" ∧
    alerts_get_crossover (Except.error e) = Except.error e ∧
    alerts_get_crossover (Except.ok closes) = Except.ok (alerts_get_crossover_frame closes) :=
  ⟨rfl, rfl, rfl, rfl, rfl⟩

/-- C8 counterexample.  The alerts.py detector answers "None" — not
"Not enough data" — on a one-bar series, and "None" — not "No data" — on an
empty series. -/
theorem C8_alerts_sentinel_mismatch :
    alerts_get_crossover_frame [(1 : ℚ)] = "None" ∧
    ("None" : String) ≠ "Not enough data" ∧
    alerts_get_crossover_frame [] = "None" ∧
    ("None" : String) ≠ "No data" := by decide

/-- C8 amended.  For the app.py/bot.py detector: an empty or missing series is
"No data", and with fewer than two surviving bars the answer is
"Not enough data" and never a notable state; the alerts.py detector instead
answers "None" for every series shorter than 205 bars. -/
theorem C8_insufficient_data (closes : List ℚ) :
    (closes = [] → app_get_crossover_frame closes = "No data") ∧
    app_get_crossover .noFrame = "No data" ∧
    ((survivors closes).length < 2 → closes ≠ [] →
        app_get_crossover_frame closes = "Not enough data") ∧
    ((survivors closes).length < 2 →
        app_get_crossover_frame closes ≠ "Golden Cross" ∧
        app_get_crossover_frame closes ≠ "Death Cross") ∧
    (closes.length < 205 → alerts_get_crossover_frame closes = "None") := by
  refine ⟨?_, rfl, ?_, ?_, ?_⟩
  · intro h; rw [h]; rfl
  · intro hlt hne
    unfold app_get_crossover_frame
    rw [if_neg hne, if_pos hlt]
  · intro hlt
    by_cases hne : closes = []
    · subst hne
      exact ⟨by decide, by decide⟩
    · have hv : app_get_crossover_frame closes = "Not enough data" := by
        unfold app_get_crossover_frame
        rw [if_neg hne, if_pos hlt]
      rw [hv]
      exact ⟨by decide, by decide⟩
  · intro hlen
    unfold alerts_get_crossover_frame
    rw [if_pos (Or.inr hlen)]

/-- Witness for C8 (amended) at the empty and the one-bar series. -/
theorem C8_insufficient_data_witness :
    app_get_crossover_frame [] = "No data" ∧
    ((survivors [(1 : ℚ)]).length < 2 ∧
      app_get_crossover_frame [(1 : ℚ)] = "Not enough data") :=
  ⟨(C8_insufficient_data []).1 rfl,
   by decide, (C8_insufficient_data [(1 : ℚ)]).2.2.1 (by decide) (by decide)⟩

/-!
## Watchlist CRUD (C7) and startup (C9)
-/

/-- C7.  Watchlist CRUD rejection atomicity: adding an (upper-cased) symbol
that is already in the loaded watchlist yields a 400 error response and no
save of the watchlist file; removing an absent symbol likewise yields a 400
error response and no save. -/
theorem C7_watchlist_rejection (raw : String) (saveOk : Bool) (wl : List String) :
    (pyNorm raw ∈ wl →
        (add_stock raw saveOk wl).status = 400 ∧ (add_stock raw saveOk wl).saved = none) ∧
    (pyNorm raw ∉ wl →
        (remove_stock raw saveOk wl).status = 400 ∧ (remove_stock raw saveOk wl).saved = none) := by
  constructor
  · intro hmem
    unfold add_stock
    by_cases hempty : pyNorm raw = ""
    · rw [if_pos hempty]
      exact ⟨rfl, rfl⟩
    · rw [if_neg hempty, if_pos hmem]
      exact ⟨rfl, rfl⟩
  · intro hmem
    unfold remove_stock
    by_cases hempty : pyNorm raw = ""
    · rw [if_pos hempty]
      exact ⟨rfl, rfl⟩
    · rw [if_neg hempty, if_pos hmem]
      exact ⟨rfl, rfl⟩

/-- Witness for C7: posting "aaa " against a watchlist already holding "AAA". -/
theorem C7_watchlist_rejection_witness :
    pyNorm "aaa " ∈ ["AAA"] ∧
    ((add_stock "aaa " true ["AAA"]).status = 400 ∧
     (add_stock "aaa " true ["AAA"]).saved = none) :=
  ⟨by decide, (C7_watchlist_rejection "aaa " true ["AAA"]).1 (by decide)⟩

/-- C9 counterexample.  In alerts.py, missing credentials do not halt startup
(the module performs no validation), while a malformed signals.json is fatal
(a persistence failure other than missing credentials), contradicting both
halves of the claim. -/
theorem C9_alerts_startup_mismatch :
    alerts_startup none none (.wellFormed []) = .running ∧
    alerts_startup (some "TOKEN") (some "CHAT") .corrupt = .halted :=
  ⟨rfl, rfl⟩

/-- C9 amended.  In bot.py, startup halts exactly when the bot token or chat
id is missing or empty — before any loop, and independent of a
watchlist-initialisation failure; in alerts.py no credential check happens and
startup halts exactly when signals.json exists but is malformed. -/
theorem C9_startup_conditions (token chat : Option String) (wfail : Bool) (st : SignalStore) :
    (bot_startup token chat wfail = .halted ↔
        (envTruthy token = false ∨ envTruthy chat = false)) ∧
    alerts_startup token chat (.wellFormed st) = .running ∧
    alerts_startup token chat .missing = .running ∧
    alerts_startup token chat .corrupt = .halted := by
  refine ⟨?_, rfl, rfl, rfl⟩
  unfold bot_startup
  split_ifs with h
  · simp [h]
  · simp [h]

/-!
## Subscription idempotence (C10)
-/

lemma subs_chats_cons_eq (hd : String × List Int) (tl : Subs) (sym : String)
    (h : hd.1 = sym) : Subs.chats (hd :: tl) sym = hd.2 := by
  unfold Subs.chats
  rw [List.find?_cons_of_pos _ (by simpa using h)]

lemma subs_chats_cons_ne (hd : String × List Int) (tl : Subs) (sym : String)
    (h : ¬ hd.1 = sym) : Subs.chats (hd :: tl) sym = Subs.chats tl sym := by
  unfold Subs.chats
  rw [List.find?_cons_of_neg _ (by simpa using h)]

/-- Appending a chat id that is not yet subscribed to `sym` keeps every
subscriber list duplicate-free. -/
lemma subs_add_nodup (sym : String) (chat : Int) :
    ∀ subs : Subs, (∀ e ∈ subs, e.2.Nodup) → chat ∉ Subs.chats subs sym →
      ∀ e ∈ Subs.add subs sym chat, e.2.Nodup := by
  intro subs
  induction subs with
  | nil => intro _ _ e he; simp [Subs.add] at he
  | cons hd tl ih =>
    intro hnd hmem e he
    by_cases h : hd.1 = sym
    · rw [subs_chats_cons_eq hd tl sym h] at hmem
      simp only [Subs.add] at he
      rw [if_pos (show (hd.1 == sym) = true from by simpa using h)] at he
      rcases List.mem_cons.mp he with he | he
      · subst he
        simp only []
        rw [List.nodup_append]
        exact ⟨hnd hd (List.mem_cons_self hd tl), List.nodup_singleton chat,
          fun x hx hxc => hmem (by rwa [List.mem_singleton.mp hxc] at hx)⟩
      · exact hnd e (List.mem_cons_of_mem hd he)
    · rw [subs_chats_cons_ne hd tl sym h] at hmem
      simp only [Subs.add] at he
      rw [if_neg (show ¬ (hd.1 == sym) = true from by simpa using h)] at he
      rcases List.mem_cons.mp he with he | he
      · subst he; exact hnd e (List.mem_cons_self e tl)
      · exact ih (fun x hx => hnd x (List.mem_cons_of_mem hd hx)) hmem e he

/-- C10.  Subscription idempotence: `/track` for an already-subscribed
(symbol, chat) pair leaves the subscription map unchanged and replies
"already subscribed"; every `/track` preserves duplicate-freeness of each
symbol's subscriber list; and one minute-level alert sweep delivers at most
one message per chat id when the subscriber list is duplicate-free. -/
theorem C10_track_idempotent :
    (∀ (subs : Subs) (sym : String) (chat : Int),
        chat ∈ Subs.chats subs sym →
        handle_track subs sym chat = (subs, trackDupMsg sym)) ∧
    (∀ (subs : Subs) (sym : String) (chat : Int),
        (∀ e ∈ subs, e.2.Nodup) → ∀ e ∈ (handle_track subs sym chat).1, e.2.Nodup) ∧
    (∀ (sym cross : String) (last : Option String) (chat_ids : List Int) (c : Int),
        chat_ids.Nodup →
        ((dynamic_step sym cross last chat_ids).1.map Prod.fst).count c ≤ 1) := by
  refine ⟨?_, ?_, ?_⟩
  · intro subs sym chat hmem
    have hsome : (subs.find? (fun e => e.1 == sym)).isSome := by
      unfold Subs.chats at hmem
      cases hfind : subs.find? (fun e => e.1 == sym) with
      | none => rw [hfind] at hmem; simp at hmem
      | some e => simp [hfind]
    unfold handle_track
    rw [if_pos hsome, if_neg (not_not_intro hmem)]
  · intro subs sym chat hnd e he
    unfold handle_track at he
    by_cases hsome : (subs.find? (fun e => e.1 == sym)).isSome
    · rw [if_pos hsome] at he
      by_cases hg : chat ∉ Subs.chats subs sym
      · rw [if_pos hg] at he
        exact subs_add_nodup sym chat subs hnd hg e he
      · rw [if_neg hg] at he
        exact hnd e he
    · rw [if_neg hsome] at he
      have hnd1 : ∀ x ∈ subs ++ [(sym, ([] : List Int))], x.2.Nodup := by
        intro x hx
        rcases List.mem_append.mp hx with hx | hx
        · exact hnd x hx
        · rw [List.mem_singleton.mp hx]
          exact List.nodup_nil
      by_cases hg : chat ∉ Subs.chats (subs ++ [(sym, [])]) sym
      · rw [if_pos hg] at he
        exact subs_add_nodup sym chat (subs ++ [(sym, [])]) hnd1 hg e he
      · rw [if_neg hg] at he
        exact hnd1 e he
  · intro sym cross last chat_ids c hnd
    unfold dynamic_step
    split_ifs with hcond
    · simp only [List.map_map]
      have hid : (Prod.fst ∘ fun chat_id : Int =>
          (chat_id, "⏱️ " ++ sym ++ " Minute-Level Crossover Alert: " ++ cross)) = id := rfl
      rw [hid, List.map_id]
      exact List.nodup_iff_count_le_one.mp hnd c
    · simp

/-- Witness for C10: a second `/track TCS.NS` from chat 5. -/
theorem C10_track_idempotent_witness :
    (5 : Int) ∈ Subs.chats [("TCS.NS", [5])] "TCS.NS" ∧
    handle_track [("TCS.NS", [5])] "TCS.NS" 5 =
      ([("TCS.NS", [5])], trackDupMsg "TCS.NS") :=
  ⟨by decide, C10_track_idempotent.1 [("TCS.NS", [5])] "TCS.NS" 5 (by decide)⟩
